import Mathlib

/-!
Verification of the orz media watcher and bundle processor.

This file gives a shallow embedding, in Lean, of the pure logic of the
repository: the filename parser, the quality and edition classifiers, the
stability detector, the debounced event queue and the movie-flow of the
bundle processor, translated from `utils.py`, `processor.py`, `config.py`
and `orzy_watcher.py`.  Filenames are modeled as lists of characters
(every use in the development is ASCII).  Filesystem state is modeled
explicitly: the destination directory is a list of (filename, size)
entries, existence flags are booleans, and the external `ffprobe`
collaborator is an oracle function from names to stream heights.
-/

namespace Orz

/-- Filenames, modeled as lists of characters. -/
abbrev Name := List Char

/-- ASCII lower-casing of one character (Python str.lower on ASCII input). -/
def lowerChar (c : Char) : Char :=
  if 65 ≤ c.toNat ∧ c.toNat ≤ 90 then Char.ofNat (c.toNat + 32) else c

/-- Lower-case a whole name. -/
def lower (s : Name) : Name := s.map lowerChar

/-- Substring test: does the second list occur contiguously in the first? -/
def containsSub : Name → Name → Bool
  | [], n => n.isEmpty
  | c :: t, n => n.isPrefixOf (c :: t) || containsSub t n

/-- Index of the last dot in a name, accumulator style. -/
def lastDotAux : Name → Nat → Option Nat → Option Nat
  | [], _, acc => acc
  | c :: t, i, acc => lastDotAux t (i + 1) (if c = '.' then some i else acc)

/-- Model of os.path.splitext on a bare filename: split at the last dot,
unless only dots precede it (leading dots never start an extension). -/
def splitext (s : Name) : Name × Name :=
  match lastDotAux s 0 none with
  | none => (s, [])
  | some i =>
      if (s.take i).any (fun c => c ≠ '.') then (s.take i, s.drop i) else (s, [])

/-- Extension of a filename, as os.path.splitext()[1]. -/
def extOf (s : Name) : Name := (splitext s).2

/-- ASCII decimal digit test (the digits matched by the regexes in scope). -/
def isDigitC (c : Char) : Bool := 48 ≤ c.toNat && c.toNat ≤ 57

/-- ASCII word-character test, the regex class backslash-w on ASCII input. -/
def isWordC (c : Char) : Bool :=
  isDigitC c || (65 ≤ c.toNat && c.toNat ≤ 90) || (97 ≤ c.toNat && c.toNat ≤ 122) || c = '_'

/-- Numeric value of a decimal digit character. -/
def dv (c : Char) : Nat := c.toNat - 48

/-- Whitespace as matched by Python str.strip and the regex class backslash-s. -/
def isSpaceC (c : Char) : Bool :=
  c = ' ' || c = '\t' || c = '\n' || c.toNat = 11 || c.toNat = 12 || c = '\r'

/-- Drop leading whitespace. -/
def stripL (s : Name) : Name := s.dropWhile isSpaceC

/-- Python str.strip: drop leading and trailing whitespace. -/
def strip (s : Name) : Name := stripL ((stripL s.reverse).reverse)

/-- Replace every maximal run of whitespace by a single space
(the re.sub of a whitespace run by one space in parse_filename). -/
def squeezeAux : Name → Name
  | [] => []
  | [c] => [if isSpaceC c then ' ' else c]
  | c1 :: c2 :: t =>
      if isSpaceC c1 && isSpaceC c2 then squeezeAux (c2 :: t)
      else (if isSpaceC c1 then ' ' else c1) :: squeezeAux (c2 :: t)

/-- Title normalization used by parse_filename: strip, collapse runs of
whitespace to single spaces, strip again. -/
def collapseTitle (s : Name) : Name := strip (squeezeAux (strip s))

/-! ## Configuration tables, from config.py (in source order). -/

def VIDEO_EXTENSIONS : List Name :=
  [".mp4".toList, ".mkv".toList, ".avi".toList, ".mov".toList, ".flv".toList, ".wmv".toList]

def SUBTITLE_EXTENSIONS : List Name :=
  [".srt".toList, ".vtt".toList, ".ass".toList, ".ssa".toList, ".sub".toList]

def EXTRAS_KEYWORDS_TO_DIR : List (Name × Name) :=
  [("featurette".toList, "Featurettes".toList),
   ("behindthescenes".toList, "Behind The Scenes".toList),
   ("deleted".toList, "Deleted Scenes".toList),
   ("interview".toList, "Interviews".toList),
   ("scene".toList, "Scenes".toList),
   ("short".toList, "Shorts".toList),
   ("trailer".toList, "Trailers".toList),
   ("gag".toList, "Featurettes".toList),
   ("bloopers".toList, "Featurettes".toList),
   ("vfx".toList, "Featurettes".toList)]

def EDITION_KEYWORDS : List (Name × Name) :=
  [("extended".toList, "\x7bedition-Extended Cut\x7d".toList),
   ("superfan".toList, "\x7bedition-Superfan Cut\x7d".toList),
   ("director\x27s cut".toList, "\x7bedition-Director\x27s Cut\x7d".toList),
   ("directors cut".toList, "\x7bedition-Director\x27s Cut\x7d".toList),
   ("theatrical".toList, "\x7bedition-Theatrical Cut\x7d".toList),
   ("uncut".toList, "\x7bedition-Uncut\x7d".toList),
   ("unrated".toList, "\x7bedition-Unrated\x7d".toList),
   ("remastered".toList, "\x7bedition-Remastered\x7d".toList),
   ("imax".toList, "\x7bedition-IMAX\x7d".toList)]

def RESOLUTION_KEYWORDS : List (Name × Name) :=
  [("2160p".toList, "4K".toList), ("4k".toList, "4K".toList),
   ("1080p".toList, "1080p".toList),
   ("720p".toList, "720p".toList),
   ("576p".toList, "576p".toList),
   ("480p".toList, "480p".toList),
   ("dvd".toList, "DVD".toList)]

def SOURCE_KEYWORDS : List (Name × Name) :=
  [("remux".toList, "Remux".toList),
   ("bluray".toList, "BluRay".toList),
   ("web-dl".toList, "WEB-DL".toList),
   ("webdl".toList, "WEB-DL".toList),
   ("webrip".toList, "WEBRip".toList),
   ("hdtv".toList, "HDTV".toList),
   ("dvdrip".toList, "DVDRip".toList)]

/-- The implicit default edition tag used by the processor. -/
def theatricalTag : Name := "\x7bedition-Theatrical Cut\x7d".toList

/-! ## utils.py: classifiers. -/

/-- First keyword of the table that occurs in the (already normalized)
name, returning its tag; iteration in table order, first hit wins. -/
def findFirstTag (tbl : List (Name × Name)) (l : Name) : Option Name :=
  match tbl with
  | [] => none
  | (kw, tag) :: rest => if containsSub l kw then some tag else findFirstTag rest l

/-- utils.is_video_file: the lower-cased extension is a video extension. -/
def is_video_file (filename : Name) : Bool :=
  VIDEO_EXTENSIONS.contains (lower (extOf filename))

/-- utils.get_edition_info: lower-case, turn dots and underscores into
spaces, and return the first matching edition tag. -/
def get_edition_info (filename : Name) : Option Name :=
  let fl := (lower filename).map (fun c => if c = '.' || c = '_' then ' ' else c)
  findFirstTag EDITION_KEYWORDS fl

/-- utils.get_version_string: first resolution tag and first source tag
found in the lower-cased name, joined by a spaced dash. -/
def get_version_string (filename : Name) : Name :=
  let fl := lower filename
  let tags :=
    (match findFirstTag RESOLUTION_KEYWORDS fl with | some t => [t] | none => []) ++
    (match findFirstTag SOURCE_KEYWORDS fl with | some t => [t] | none => [])
  match tags with
  | [] => []
  | [t] => t
  | t1 :: t2 :: _ => t1 ++ (" - ".toList) ++ t2

/-- utils.get_extra_type: lower-case, delete spaces, dashes and
underscores, and return the first matching extras directory. -/
def get_extra_type (filename : Name) : Option Name :=
  let fl := (lower filename).filter (fun c => !(c = ' ' || c = '-' || c = '_'))
  findFirstTag EXTRAS_KEYWORDS_TO_DIR fl

/-- utils.get_quality_score.  The first argument is the ffprobe
collaborator, an oracle giving the probed stream height of a path (a
failed probe is height 0, which the source maps to score 0).  The second
argument says whether the path exists on disk; a missing path scores 0
immediately.  Otherwise: in-name resolution keywords give the tier, the
probe is the fallback, then the first matching source keyword adds its
bonus. -/
def get_quality_score (probe : Name → Nat) (fsExists : Bool) (filename : Name) : Nat :=
  if !fsExists then 0 else
  let fl := lower filename
  let score :=
    if containsSub fl ("2160p".toList) || containsSub fl ("4k".toList) then 400
    else if containsSub fl ("1080p".toList) then 300
    else if containsSub fl ("720p".toList) then 200
    else if containsSub fl ("480p".toList) || containsSub fl ("sd".toList) then 100
    else 0
  let score :=
    if score = 0 then
      let h := probe filename
      if 2160 ≤ h then 400 else if 1080 ≤ h then 300
      else if 720 ≤ h then 200 else if 0 < h then 100 else 0
    else score
  score +
    (if containsSub fl ("remux".toList) then 50
     else if containsSub fl ("bluray".toList) then 45
     else if containsSub fl ("web-dl".toList) || containsSub fl ("webrip".toList) then 40
     else if containsSub fl ("hdtv".toList) then 20
     else 0)

/-! ## utils.parse_filename and its three regular expressions.

The searches below implement, over lists of characters, exactly the three
Python regex searches of parse_filename: leftmost match, greedy
quantifiers with backtracking where the pattern allows it.  All three are
applied to the cleaned name, in which dots and underscores have already
become spaces, so the optional separator class can only meet spaces and
dashes there; the implementation nevertheless keeps the full class. -/

/-- The year pattern 19[89]d or 20dd (four consecutive characters). -/
def yearPat (c1 c2 c3 c4 : Char) : Bool :=
  (c1 = '1' && c2 = '9' && (c3 = '8' || c3 = '9') && isDigitC c4) ||
  (c1 = '2' && c2 = '0' && isDigitC c3 && isDigitC c4)

/-- Word boundary after a match: end of input or a non-word character. -/
def bAfter : Name → Bool
  | [] => true
  | c :: _ => !isWordC c

/-- Leftmost match of the year regex with word boundaries on both sides.
The first argument says whether the character just before the current
position is a word character (false at the start of the string). -/
def findYearAux (prevWord : Bool) (pos : Nat) : Name → Option (Nat × Nat)
  | [] => none
  | c1 :: rest =>
      match rest with
      | c2 :: c3 :: c4 :: rest4 =>
          if !prevWord && yearPat c1 c2 c3 c4 && bAfter rest4 then
            some (pos, 1000 * dv c1 + 100 * dv c2 + 10 * dv c3 + dv c4)
          else findYearAux (isWordC c1) (pos + 1) rest
      | _ => none

/-- The separator class of the season and episode regexes. -/
def isSepC (c : Char) : Bool := c = '.' || c = '_' || c = ' ' || c = '-'

/-- Case-insensitive letter s. -/
def isSC (c : Char) : Bool := c = 'S' || c = 's'

/-- Case-insensitive letter e. -/
def isEC (c : Char) : Bool := c = 'E' || c = 'e'

/-- One or two decimal digits, greedily. -/
def digits12 : Name → Option Nat
  | [] => none
  | d1 :: rest =>
      if isDigitC d1 then
        match rest with
        | d2 :: _ => if isDigitC d2 then some (10 * dv d1 + dv d2) else some (dv d1)
        | [] => some (dv d1)
      else none

/-- The optional trailing group: an optional separator, a letter e and one
or two digits; failure of the group leaves the surrounding match intact. -/
def matchOptE : Name → Option Nat
  | [] => none
  | c :: rest =>
      if isSepC c then
        match rest with
        | e :: r2 => if isEC e then digits12 r2 else none
        | [] => none
      else if isEC c then digits12 rest
      else none

/-- After the episode letter e: one or two digits greedily, then the
optional second-episode group. -/
def matchAfterE : Name → Option (Nat × Option Nat)
  | [] => none
  | d1 :: rest =>
      if isDigitC d1 then
        match rest with
        | d2 :: r2 =>
            if isDigitC d2 then some (10 * dv d1 + dv d2, matchOptE r2)
            else some (dv d1, matchOptE rest)
        | [] => some (dv d1, none)
      else none

/-- An optional separator followed by the letter e and the episode digits. -/
def matchSepE : Name → Option (Nat × Option Nat)
  | [] => none
  | c :: rest =>
      if isSepC c then
        match rest with
        | e :: r2 => if isEC e then matchAfterE r2 else none
        | [] => none
      else if isEC c then matchAfterE rest
      else none

/-- After the letter s: season digits, greedily two then backtracking to
one, followed by the mandatory episode part. -/
def matchSeason : Name → Option (Nat × Nat × Option Nat)
  | [] => none
  | d1 :: rest =>
      if isDigitC d1 then
        match rest with
        | d2 :: r2 =>
            if isDigitC d2 then
              match matchSepE r2 with
              | some (ep, en) => some (10 * dv d1 + dv d2, ep, en)
              | none => (matchSepE rest).map (fun p => (dv d1, p))
            else (matchSepE rest).map (fun p => (dv d1, p))
        | [] => none
      else none

/-- Attempt of the full season-episode pattern at one position, including
the optional leading separator. -/
def matchSEAt : Name → Option (Nat × Nat × Option Nat)
  | [] => none
  | c :: rest =>
      if isSepC c then
        match rest with
        | s :: r2 => if isSC s then matchSeason r2 else none
        | [] => none
      else if isSC c then matchSeason rest
      else none

/-- Leftmost match of the season-episode regex, with its start position. -/
def findSEAux (pos : Nat) : Name → Option (Nat × Nat × Nat × Option Nat)
  | [] => none
  | c :: rest =>
      match matchSEAt (c :: rest) with
      | some (s, ep, en) => some (pos, s, ep, en)
      | none => findSEAux (pos + 1) rest

/-- Digits of the lone-season pattern: one or two digits, greedily, each
alternative checked against the trailing word boundary. -/
def matchSOnlyDigits : Name → Option Nat
  | [] => none
  | d1 :: rest =>
      if isDigitC d1 then
        match rest with
        | d2 :: r2 =>
            if isDigitC d2 then (if bAfter r2 then some (10 * dv d1 + dv d2) else none)
            else if !isWordC d2 then some (dv d1) else none
        | [] => some (dv d1)
      else none

/-- Attempt of the lone-season pattern at one position. -/
def matchSOnlyAt : Name → Option Nat
  | [] => none
  | c :: rest =>
      if isSepC c then
        match rest with
        | s :: r2 => if isSC s then matchSOnlyDigits r2 else none
        | [] => none
      else if isSC c then matchSOnlyDigits rest
      else none

/-- Leftmost match of the lone-season regex, with its start position. -/
def findSOnlyAux (pos : Nat) : Name → Option (Nat × Nat)
  | [] => none
  | c :: rest =>
      match matchSOnlyAt (c :: rest) with
      | some s => some (pos, s)
      | none => findSOnlyAux (pos + 1) rest

/-- The parsed-name record produced by utils.parse_filename. -/
structure ParsedName where
  title : Name
  year : Option Nat
  season : Option Nat
  start_episode : Option Nat
  end_episode : Option Nat
deriving Repr, DecidableEq

/-- Extension-stripped name with dots and underscores turned to spaces. -/
def cleanName (filename : Name) : Name :=
  ((splitext filename).1).map (fun c => if c = '.' || c = '_' then ' ' else c)

/-- utils.parse_filename: locate the year and season-episode anchors on
the cleaned name, cut the title at the earlier anchor (falling back to the
lone-season anchor when no season-episode pair matches), and collapse the
title whitespace. -/
def parse_filename (filename : Name) : ParsedName :=
  let clean := cleanName filename
  let ym := findYearAux false 0 clean
  match findSEAux 0 clean with
  | some (sp, s, ep, en) =>
      let cut := match ym with | some (yp, _) => min yp sp | none => sp
      { title := collapseTitle (clean.take cut), year := ym.map (fun p => p.2),
        season := some s, start_episode := some ep, end_episode := en }
  | none =>
      match findSOnlyAux 0 clean, ym with
      | some (sp2, s2), some (yp, y) =>
          { title := collapseTitle (clean.take (min yp sp2)), year := some y,
            season := some s2, start_episode := none, end_episode := none }
      | some (sp2, s2), none =>
          { title := collapseTitle (clean.take sp2), year := none,
            season := some s2, start_episode := none, end_episode := none }
      | none, some (yp, y) =>
          { title := collapseTitle (clean.take yp), year := some y,
            season := none, start_episode := none, end_episode := none }
      | none, none =>
          { title := collapseTitle clean, year := none,
            season := none, start_episode := none, end_episode := none }

/-! ## utils.safe_remove, utils.get_snapshot and utils.wait_for_stability. -/

/-- utils.safe_remove, as a predicate saying whether the path ends up
removed.  Arguments: is this a source bundle, the DELETE_SOURCE_FILES
flag, whether the path exists, and whether the underlying remove raises
OSError (which the source catches and logs, returning normally). -/
def safe_remove (is_source_bundle del_flag pathExists osFail : Bool) : Bool :=
  if is_source_bundle && !del_flag then false
  else if !pathExists then false
  else if osFail then false
  else true

/-- A directory listing handed to get_snapshot: file paths paired with the
result of the size lookup, none when the file vanished between the walk
and the os.path.getsize call (the FileNotFoundError branch). -/
abbrev Listing := List (Name × Option Nat)

/-- A snapshot: the path-to-size mapping built by utils.get_snapshot. -/
abbrev Snap := List (Name × Nat)

/-- utils.get_snapshot over a listing: entries whose size lookup failed
are skipped (the except-continue branch). -/
def get_snapshot (entries : Listing) : Snap :=
  entries.filterMap (fun e => e.2.map (fun n => (e.1, n)))

/-- Equality of two snapshots as Python dict equality: the same
key-to-value pairs (snapshots built by get_snapshot have distinct keys). -/
def snapEq (a b : Snap) : Bool :=
  a.all (fun x => decide (x ∈ b)) && b.all (fun x => decide (x ∈ a))

/-- Number of loop iterations of wait_for_stability: polls happen at
elapsed times 0, interval, 2 interval, ... while elapsed < timeout. -/
def numPolls (timeout interval : Nat) : Nat := (timeout + interval - 1) / interval

/-- The polling loop of utils.wait_for_stability.  The k-th poll reads
snapshot snaps k; the loop returns true when the current snapshot is
non-empty and equal to the previous one, and false when the fuel (the
remaining iterations before the timeout) runs out. -/
def wfsAux (snaps : Nat → Snap) : Nat → Nat → Snap → Bool
  | 0, _, _ => false
  | fuel + 1, k, last =>
      let cur := snaps k
      if !cur.isEmpty && snapEq cur last then true
      else wfsAux snaps fuel (k + 1) cur

/-- utils.wait_for_stability: poll with an initially empty previous
snapshot until two consecutive snapshots agree or the timeout elapses. -/
def wait_for_stability (timeout interval : Nat) (snaps : Nat → Snap) : Bool :=
  wfsAux snaps (numPolls timeout interval) 0 []

/-! ## processor.py: the movie flow and the bundle orchestrator.

The destination directory is a list of (filename, size) entries in
listing order; renames rewrite an entry in place, copies append.  The
subtitle pass only adds subtitle files and is not needed by any claim, so
process_movie_bundle is modeled on its video and extras passes. -/

/-- A file of the modeled filesystem: a name and a byte size. -/
structure Entry where
  name : Name
  size : Nat
deriving Repr, DecidableEq

/-- A destination directory: its files, in listing order. -/
abbrev DestDir := List Entry

/-- Does the directory hold a file of that exact name (os.path.exists on
the joined destination path)? -/
def destHas (p : Name) (dest : DestDir) : Bool := dest.any (fun e => e.name = p)

/-- os.rename inside the destination directory. -/
def renameEntry (old new : Name) (dest : DestDir) : DestDir :=
  dest.map (fun e => if e.name = old then { e with name := new } else e)

/-- First file of the listing that starts with the base name and carries
no edition tag (the audit scan of process_movie_bundle). -/
def findUnlabeled (base : Name) (dest : DestDir) : Option Entry :=
  dest.find? (fun e => base.isPrefixOf e.name && (get_edition_info e.name).isNone)

/-- utils.get_existing_version_info: best quality score per edition tag
among destination files that start with the base name and are videos.
The dict is an association list in first-insertion order. -/
def lookupTag (vs : List (Name × Nat)) (ed : Name) : Option Nat :=
  match vs with
  | [] => none
  | (e, s) :: rest => if e = ed then some s else lookupTag rest ed

/-- Write a value for a key of the association list (key present). -/
def setTag : List (Name × Nat) → Name → Nat → List (Name × Nat)
  | [], _, _ => []
  | (e, s) :: rest, ed, sc =>
      if e = ed then (e, sc) :: rest else (e, s) :: setTag rest ed sc

/-- The dict update of get_existing_version_info: insert when absent,
overwrite when strictly larger. -/
def updateVersion (vs : List (Name × Nat)) (ed : Name) (sc : Nat) : List (Name × Nat) :=
  match lookupTag vs ed with
  | none => vs ++ [(ed, sc)]
  | some old => if old < sc then setTag vs ed sc else vs

/-- utils.get_existing_version_info over the modeled directory. -/
def get_existing_version_info (probe : Name → Nat) (dest : DestDir) (base : Name) :
    List (Name × Nat) :=
  dest.foldl (fun vs e =>
    if base.isPrefixOf e.name && is_video_file e.name then
      updateVersion vs ((get_edition_info e.name).getD theatricalTag)
        (get_quality_score probe true e.name)
    else vs) []

/-- The just-in-time audit and repair step of process_movie_bundle: when
the incoming file carries an edition tag and the first unlabeled
destination file with the same base name has exactly the same byte size,
rename that file to carry the tag, unless the repaired name exists. -/
def repairStep (base : Name) (dest : DestDir) (src : Entry) : DestDir :=
  match get_edition_info src.name with
  | none => dest
  | some tag =>
      match findUnlabeled base dest with
      | none => dest
      | some u =>
          if u.size = src.size then
            let repaired := base ++ (' ' :: tag) ++ extOf u.name
            if !destHas repaired dest then renameEntry u.name repaired dest else dest
          else dest

/-- Final destination filename of a movie file: base name, the edition
tag when not the default, the version string when non-empty, and the
source extension. -/
def finalMovieName (base : Name) (src : Entry) : Name :=
  let newEdition := (get_edition_info src.name).getD theatricalTag
  let vs := get_version_string src.name
  base ++ (if newEdition ≠ theatricalTag then ' ' :: newEdition else [])
       ++ (if vs ≠ [] then (" - ".toList) ++ vs else [])
       ++ extOf src.name

/-- The copy at the end of the loop body: copy the source to its final
name unless that exact path already exists. -/
def copyStep (base : Name) (dest : DestDir) (src : Entry) : DestDir :=
  let fn := finalMovieName base src
  if !destHas fn dest then dest ++ [⟨fn, src.size⟩] else dest

/-- One iteration of the main loop of process_movie_bundle: repair, then
re-fetch existing versions, then skip when a same-or-better version of
the same edition exists, else copy guarded by the exact-path check. -/
def processMovieFile (probe : Name → Nat) (base : Name) (dest : DestDir) (src : Entry) :
    DestDir :=
  let dest1 := repairStep base dest src
  let existing := get_existing_version_info probe dest1 base
  let newEdition := (get_edition_info src.name).getD theatricalTag
  let newScore := get_quality_score probe true src.name
  match lookupTag existing newEdition with
  | some old => if newScore ≤ old then dest1 else copyStep base dest1 src
  | none => copyStep base dest1 src

/-- The extras pass of process_movie_bundle (processor.py lines 130-132):
the loop body is the statement pass, so the destination is unchanged. -/
def processExtrasStub (dest : DestDir) (_extras : List Entry) : DestDir := dest

/-- processor.process_movie_bundle on its video and extras passes: an
empty video list returns immediately, otherwise the main loop folds over
the videos and the extras loop does nothing. -/
def process_movie_bundle (probe : Name → Nat) (base : Name) (dest : DestDir)
    (videos extras : List Entry) : DestDir :=
  if videos.isEmpty then dest
  else processExtrasStub (videos.foldl (processMovieFile probe base) dest) extras

/-- Main videos of a bundle walk: video files with no extras keyword. -/
def classifyMain (files : List Entry) : List Entry :=
  files.filter (fun f => is_video_file f.name && (get_extra_type f.name).isNone)

/-- Extra videos of a bundle walk: video files with an extras keyword. -/
def classifyExtras (files : List Entry) : List Entry :=
  files.filter (fun f => is_video_file f.name && (get_extra_type f.name).isSome)

/-- The media kind carried by a resolved metadata record. -/
inductive MKind
  | series
  | movie
  | other
deriving Repr, DecidableEq

/-- Outcome of processor.process_bundle on one bundle. -/
structure BundleOutcome where
  abandonedNoVideos : Bool
  abandonedNoMetadata : Bool
  dest : DestDir
  srcDeleted : Bool
deriving Repr, DecidableEq

/-- processor.process_bundle: classify the walked files, abandon when no
main video was found, resolve metadata (an oracle here, as the external
lookup), dispatch the movie flow on the movie destination directory, and
finally reach the cleanup line.  Both abandon branches return before that
line.  The cleanup call at processor.py line 245 is
safe_remove(bundle_path, is_source_bundle=True): the DELETE_SOURCE_FILES
parameter of safe_remove is not passed, so Python binds its default
False (utils.py line 158; utils.py never imports the configured flag).
The first Bool argument below models the configured DELETE_SOURCE_FILES
value, which this code path therefore never consults.  The series flow
touches a different directory tree and is not tracked in dest. -/
def process_bundle (probe : Name → Nat) (_del_flag osFail : Bool) (base : Name)
    (destInit : DestDir) (files : List Entry) (metadata : Option MKind) : BundleOutcome :=
  let videos := classifyMain files
  let extras := classifyExtras files
  if videos.isEmpty then
    { abandonedNoVideos := true, abandonedNoMetadata := false,
      dest := destInit, srcDeleted := false }
  else
    match metadata with
    | none =>
        { abandonedNoVideos := false, abandonedNoMetadata := true,
          dest := destInit, srcDeleted := false }
    | some k =>
        let dest2 :=
          if k = MKind.movie then process_movie_bundle probe base destInit videos extras
          else destInit
        { abandonedNoVideos := false, abandonedNoMetadata := false,
          dest := dest2, srcDeleted := safe_remove true false true osFail }

/-! ## orzy_watcher.py: the debounced event queue for one watched key. -/

/-- Debounce state of one WatchedItem key: the pending timer deadline,
whether the key is currently in the processing queue, and the times at
which an entry was enqueued. -/
structure DebounceState where
  timer : Option Nat
  inQueue : Bool
  enqueues : List Nat
deriving Repr, DecidableEq

/-- ChangeHandler.on_any_event for the key at time t: cancel any pending
timer and arm a new one for PROCESS_DELAY seconds later. -/
def onEvent (d t : Nat) (s : DebounceState) : DebounceState :=
  { s with timer := some (t + d) }

/-- ChangeHandler.queue_item, run when a timer with deadline t fires: if
the key still exists on disk and is not already in the queue, enqueue it;
always drop the timer entry.  A superseded timer (deadline different
from the live one) was cancelled and does nothing. -/
def fireAt (pathExists : Bool) (t : Nat) (s : DebounceState) : DebounceState :=
  if s.timer = some t then
    { timer := none,
      inQueue := s.inQueue || pathExists,
      enqueues := if pathExists && !s.inQueue then s.enqueues ++ [t] else s.enqueues }
  else s

/-- Deliver a list of timed events for the key, firing the pending timer
first whenever its deadline has passed before the next event. -/
def runEvents (d : Nat) (pathExists : Bool) : List Nat → DebounceState → DebounceState
  | [], s => s
  | t :: ts, s =>
      let s1 := match s.timer with
        | some dl => if dl ≤ t then fireAt pathExists dl s else s
        | none => s
      runEvents d pathExists ts (onEvent d t s1)

/-- Fire the last pending timer once all events have been delivered. -/
def finishRun (pathExists : Bool) (s : DebounceState) : DebounceState :=
  match s.timer with
  | some dl => fireAt pathExists dl s
  | none => s

/-- Full debounce run for one key: deliver the events, then let the
remaining timer fire. -/
def debounceRun (d : Nat) (pathExists : Bool) (ts : List Nat) : DebounceState :=
  finishRun pathExists (runEvents d pathExists ts ⟨none, false, []⟩)

/-- The all-zero probe oracle: every ffprobe call fails or reports no
video stream, the graceful-degradation case of get_quality_score. -/
def zeroProbe : Name → Nat := fun _ => 0

/-! ## Theorems. -/

/-- C10: for every path that does not exist on the filesystem at call
time, get_quality_score returns exactly 0, whatever the filename says and
whatever the probe would answer (the probe is irrelevant, hence never
consulted), because the missing-path guard returns before any scoring. -/
theorem missing_path_scores_zero (probe probe2 : Name → Nat) (filename : Name) :
    get_quality_score probe false filename = 0 ∧
    get_quality_score probe false filename = get_quality_score probe2 false filename :=
  ⟨rfl, rfl⟩

/-- C8: quality_score is strictly ordered on the tier-plus-bonus table
for names whose resolution keyword is found in-name: a name with 2160p
and remux scores exactly 450, strictly above a name with 1080p and bluray
(345), strictly above a name with only 720p and no source keyword (200),
whatever the probe oracle is. -/
theorem quality_score_ordering (probe : Name → Nat) (n1 n2 n3 : Name)
    (h1a : containsSub (lower n1) ("2160p".toList) = true)
    (h1b : containsSub (lower n1) ("remux".toList) = true)
    (h2a : containsSub (lower n2) ("1080p".toList) = true)
    (h2b : containsSub (lower n2) ("bluray".toList) = true)
    (h2c : containsSub (lower n2) ("2160p".toList) = false)
    (h2d : containsSub (lower n2) ("4k".toList) = false)
    (h2e : containsSub (lower n2) ("remux".toList) = false)
    (h3a : containsSub (lower n3) ("720p".toList) = true)
    (h3b : containsSub (lower n3) ("2160p".toList) = false)
    (h3c : containsSub (lower n3) ("4k".toList) = false)
    (h3d : containsSub (lower n3) ("1080p".toList) = false)
    (h3e : containsSub (lower n3) ("remux".toList) = false)
    (h3f : containsSub (lower n3) ("bluray".toList) = false)
    (h3g : containsSub (lower n3) ("web-dl".toList) = false)
    (h3h : containsSub (lower n3) ("webrip".toList) = false)
    (h3i : containsSub (lower n3) ("hdtv".toList) = false) :
    get_quality_score probe true n1 = 450 ∧
    get_quality_score probe true n2 = 345 ∧
    get_quality_score probe true n3 = 200 ∧
    get_quality_score probe true n2 < get_quality_score probe true n1 ∧
    get_quality_score probe true n3 < get_quality_score probe true n2 := by
  simp only [get_quality_score]
  rw [h1a, h1b, h2a, h2b, h2c, h2d, h2e, h3a, h3b, h3c, h3d, h3e, h3f, h3g, h3h, h3i]
  norm_num

/-- Witness for C8 at concrete filenames. -/
theorem quality_score_ordering_witness :
    get_quality_score zeroProbe true ("Movie.2160p.REMUX.mkv".toList) = 450 ∧
    get_quality_score zeroProbe true ("Movie.1080p.BluRay.mkv".toList) = 345 ∧
    get_quality_score zeroProbe true ("Movie.720p.mkv".toList) = 200 ∧
    get_quality_score zeroProbe true ("Movie.1080p.BluRay.mkv".toList) <
      get_quality_score zeroProbe true ("Movie.2160p.REMUX.mkv".toList) ∧
    get_quality_score zeroProbe true ("Movie.720p.mkv".toList) <
      get_quality_score zeroProbe true ("Movie.1080p.BluRay.mkv".toList) :=
  quality_score_ordering zeroProbe ("Movie.2160p.REMUX.mkv".toList)
    ("Movie.1080p.BluRay.mkv".toList) ("Movie.720p.mkv".toList)
    (by decide) (by decide) (by decide) (by decide) (by decide) (by decide)
    (by decide) (by decide) (by decide) (by decide) (by decide) (by decide)
    (by decide) (by decide) (by decide) (by decide)

/-- C2 counterexample: processing a strictly better 1080p file over an
existing same-edition 720p file leaves the old file in place, so the
destination holds two live video files for the same (program, edition)
key; nothing is removed, refuting the claimed supersede-and-remove
invariant. -/
theorem upgrade_leaves_old_version_in_place :
    processMovieFile zeroProbe ("Title (2020)".toList)
        [⟨"Title (2020) - 720p.mkv".toList, 5⟩] ⟨"Title.2020.1080p.mkv".toList, 7⟩ =
      [⟨"Title (2020) - 720p.mkv".toList, 5⟩, ⟨"Title (2020) - 1080p.mkv".toList, 7⟩] ∧
    get_edition_info ("Title (2020) - 720p.mkv".toList) =
      get_edition_info ("Title (2020) - 1080p.mkv".toList) ∧
    get_quality_score zeroProbe true ("Title (2020) - 720p.mkv".toList) <
      get_quality_score zeroProbe true ("Title.2020.1080p.mkv".toList) ∧
    is_video_file ("Title (2020) - 720p.mkv".toList) = true := by
  decide

/-- C3 counterexample: with the source-deletion flag enabled, neither a
fully processed movie bundle (one main video, metadata resolved, no
removal fault) nor an abandoned one has its source deleted, refuting
deleted-iff-flag-enabled: the cleanup call never forwards the flag to
safe_remove, whose parameter defaults to disabled. -/
theorem enabled_flag_source_still_not_deleted :
    (process_bundle zeroProbe true false ("Movie (2020)".toList) []
        [⟨"Movie.2020.1080p.mkv".toList, 7⟩] (some MKind.movie)).srcDeleted = false ∧
    (process_bundle zeroProbe true false ("Movie (2020)".toList) []
        [⟨"Movie.2020.1080p.mkv".toList, 7⟩] (some MKind.movie)).abandonedNoVideos = false ∧
    (process_bundle zeroProbe true false ("Movie (2020)".toList) []
        [⟨"notes.txt".toList, 1⟩] (some MKind.movie)).srcDeleted = false ∧
    (process_bundle zeroProbe true false ("Movie (2020)".toList) []
        [⟨"notes.txt".toList, 1⟩] (some MKind.movie)).abandonedNoVideos = true := by
  decide

/-- C3 amended: the orchestrator never deletes the source, whatever the
configured source-deletion flag, whether the bundle was processed or
abandoned, and whether or not the underlying removal would fail: the
call sites omit the DELETE_SOURCE_FILES argument of safe_remove, so the
is-source-bundle guard always returns before touching the filesystem
(hence nothing can raise), and the source always stays in place. -/
theorem source_never_deleted (probe : Name → Nat) (del_flag osFail : Bool)
    (base : Name) (destInit : DestDir) (files : List Entry) (metadata : Option MKind) :
    (process_bundle probe del_flag osFail base destInit files metadata).srcDeleted = false ∧
    (∀ pathExists osFail2 : Bool, safe_remove true false pathExists osFail2 = false) := by
  constructor
  · unfold process_bundle
    cases hv : (classifyMain files).isEmpty <;> cases metadata <;> simp [hv, safe_remove]
  · intro pathExists osFail2
    rfl

/-- C7 counterexample: a bundle whose only video is an Extra (a trailer)
has an empty main-video list and is abandoned, refuting the claim that a
bundle with at least one Extra video is not abandoned. -/
theorem extras_only_bundle_abandoned :
    (process_bundle zeroProbe false false ("Movie (2020)".toList) []
        [⟨"Movie-Trailer.mkv".toList, 1⟩] (some MKind.movie)).abandonedNoVideos = true ∧
    (classifyExtras [⟨"Movie-Trailer.mkv".toList, 1⟩]).length = 1 := by
  decide

/-- C7 amended: the orchestrator abandons a bundle with the error log
exactly when the bundle contains zero Main videos; Extra videos are
filtered out before the check and do not prevent abandonment. -/
theorem abandon_iff_no_main_videos (probe : Name → Nat) (del_flag osFail : Bool)
    (base : Name) (destInit : DestDir) (files : List Entry) (metadata : Option MKind) :
    (process_bundle probe del_flag osFail base destInit files metadata).abandonedNoVideos =
      (classifyMain files).isEmpty := by
  unfold process_bundle
  cases hv : (classifyMain files).isEmpty <;> cases metadata <;> simp [hv]

/-- C6: the extras pass of the movie flow is a no-op in the shipped code
(the loop body at processor.py lines 130-132 is the statement pass): for
a bundle with a main video and a trailer, the trailer is recognized as an
Extra of category Trailers, yet the destination receives only the main
video and nothing for the extra; the extras loop leaves every destination
unchanged.  The spec and the sibling revision orz_automated.py copy the
extra into the category subdirectory, so the stub contradicts the
documented intent. -/
theorem extras_pass_is_noop :
    get_extra_type ("Movie-Trailer.mkv".toList) = some ("Trailers".toList) ∧
    process_movie_bundle zeroProbe ("Movie (2020)".toList) []
        [⟨"Movie.2020.1080p.mkv".toList, 7⟩] [⟨"Movie-Trailer.mkv".toList, 1⟩] =
      [⟨"Movie (2020) - 1080p.mkv".toList, 7⟩] ∧
    (∀ (dest : DestDir) (extras : List Entry), processExtrasStub dest extras = dest) :=
  ⟨by decide, by decide, fun _ _ => rfl⟩

/-- C9 counterexample: reprocessing the same input after its destination
file was delivered is not idempotent.  For a source name carrying the
explicit theatrical edition keyword, the second run renames the delivered
file through the just-in-time repair step and then copies the source
again, changing the destination and performing a second copy. -/
theorem reprocessing_theatrical_changes_dest :
    processMovieFile zeroProbe ("Movie (2020)".toList) []
        ⟨"Movie.2020.Theatrical.720p.mkv".toList, 7⟩ =
      [⟨"Movie (2020) - 720p.mkv".toList, 7⟩] ∧
    processMovieFile zeroProbe ("Movie (2020)".toList)
        [⟨"Movie (2020) - 720p.mkv".toList, 7⟩]
        ⟨"Movie.2020.Theatrical.720p.mkv".toList, 7⟩ =
      [⟨"Movie (2020) \x7bedition-Theatrical Cut\x7d.mkv".toList, 7⟩,
       ⟨"Movie (2020) - 720p.mkv".toList, 7⟩] := by
  decide

/-- Renaming keeps the number of files. -/
theorem renameEntry_length (old new : Name) (dest : DestDir) :
    (renameEntry old new dest).length = dest.length := by
  simp [renameEntry]

/-- The repair step only renames, so it keeps the number of files. -/
theorem repairStep_length (base : Name) (dest : DestDir) (src : Entry) :
    (repairStep base dest src).length = dest.length := by
  simp only [repairStep]
  split
  · rfl
  · split
    · rfl
    · split
      · split
        · exact renameEntry_length _ _ _
        · rfl
      · rfl

/-- The copy step appends at most one file. -/
theorem copyStep_length (base : Name) (dest : DestDir) (src : Entry) :
    dest.length ≤ (copyStep base dest src).length := by
  simp only [copyStep]
  split
  · simp
  · exact Nat.le_refl _

/-- When the incoming file has no edition tag, one loop iteration of the
movie flow either leaves the directory unchanged or appends exactly the
final-named copy of the source. -/
theorem processMovieFile_edition_none (probe : Name → Nat) (base : Name)
    (dest : DestDir) (src : Entry) (h : get_edition_info src.name = none) :
    processMovieFile probe base dest src = dest ∨
    processMovieFile probe base dest src =
      dest ++ [⟨finalMovieName base src, src.size⟩] := by
  simp only [processMovieFile, repairStep, copyStep, h]
  split
  · split
    · exact Or.inl rfl
    · split
      · exact Or.inr rfl
      · exact Or.inl rfl
  · split
    · exact Or.inr rfl
    · exact Or.inl rfl

/-- When the incoming file has no edition tag and its final name is
already present, one loop iteration changes nothing. -/
theorem processMovieFile_fixed (probe : Name → Nat) (base : Name)
    (dest : DestDir) (src : Entry) (h : get_edition_info src.name = none)
    (hhas : destHas (finalMovieName base src) dest = true) :
    processMovieFile probe base dest src = dest := by
  simp only [processMovieFile, repairStep, copyStep, h, hhas, Bool.not_true]
  split
  · split
    · rfl
    · simp
  · simp

/-- The final name is present after appending it. -/
theorem destHas_append_self (fn : Name) (dest : DestDir) (sz : Nat) :
    destHas fn (dest ++ [⟨fn, sz⟩]) = true := by
  simp [destHas]

/-- C2 amended: processing a strictly better same-edition file copies the
new version but removes nothing: the movie flow never deletes a
destination file (the file count never drops; the repair step only
renames), and for an untagged incoming file the destination is either
unchanged or exactly extended by the final-named copy, so lower-quality
duplicates of the same edition stay live next to the better one. -/
theorem movie_flow_never_removes_files (probe : Name → Nat) (base : Name)
    (dest : DestDir) (src : Entry) :
    dest.length ≤ (processMovieFile probe base dest src).length ∧
    (get_edition_info src.name = none →
      processMovieFile probe base dest src = dest ∨
      processMovieFile probe base dest src =
        dest ++ [⟨finalMovieName base src, src.size⟩]) := by
  constructor
  · simp only [processMovieFile]
    have hr := (repairStep_length base dest src).ge
    have hc : (repairStep base dest src).length ≤
        (copyStep base (repairStep base dest src) src).length :=
      copyStep_length base (repairStep base dest src) src
    split
    · split
      · exact hr
      · exact le_trans hr hc
    · exact le_trans hr hc
  · exact processMovieFile_edition_none probe base dest src

/-- Witness for C2 amended at the counterexample input. -/
theorem movie_flow_never_removes_files_witness :
    ([⟨("Title (2020) - 720p.mkv".toList : Name), 5⟩] : DestDir).length ≤
      (processMovieFile zeroProbe ("Title (2020)".toList)
        [⟨"Title (2020) - 720p.mkv".toList, 5⟩] ⟨"Title.2020.1080p.mkv".toList, 7⟩).length ∧
    (processMovieFile zeroProbe ("Title (2020)".toList)
        [⟨"Title (2020) - 720p.mkv".toList, 5⟩] ⟨"Title.2020.1080p.mkv".toList, 7⟩ =
        [⟨"Title (2020) - 720p.mkv".toList, 5⟩] ∨
      processMovieFile zeroProbe ("Title (2020)".toList)
        [⟨"Title (2020) - 720p.mkv".toList, 5⟩] ⟨"Title.2020.1080p.mkv".toList, 7⟩ =
        [⟨"Title (2020) - 720p.mkv".toList, 5⟩] ++
          [⟨finalMovieName ("Title (2020)".toList) ⟨"Title.2020.1080p.mkv".toList, 7⟩, 7⟩]) :=
  ⟨(movie_flow_never_removes_files zeroProbe ("Title (2020)".toList)
      [⟨"Title (2020) - 720p.mkv".toList, 5⟩] ⟨"Title.2020.1080p.mkv".toList, 7⟩).1,
   (movie_flow_never_removes_files zeroProbe ("Title (2020)".toList)
      [⟨"Title (2020) - 720p.mkv".toList, 5⟩] ⟨"Title.2020.1080p.mkv".toList, 7⟩).2 (by decide)⟩

/-- C9 amended: rerunning the movie flow on the same input is idempotent
whenever the incoming filename carries no edition keyword: the second run
skips through the same-or-lower-score check or the exact-path-exists
check and the destination directory is unchanged.  (For edition-tagged
names the just-in-time repair step can rename or re-copy, as the
counterexample shows.) -/
theorem reprocess_idempotent_without_edition (probe : Name → Nat) (base : Name)
    (dest : DestDir) (src : Entry) (h : get_edition_info src.name = none) :
    processMovieFile probe base (processMovieFile probe base dest src) src =
      processMovieFile probe base dest src := by
  rcases processMovieFile_edition_none probe base dest src h with h1 | h1
  · rw [h1]
    exact h1
  · rw [h1]
    exact processMovieFile_fixed probe base _ src h (destHas_append_self _ _ _)

/-- Witness for C9 amended: a plain upgrade rerun on its own output. -/
theorem reprocess_idempotent_without_edition_witness :
    processMovieFile zeroProbe ("Movie (2020)".toList)
        (processMovieFile zeroProbe ("Movie (2020)".toList)
          [⟨"Movie (2020) - 480p.mkv".toList, 3⟩] ⟨"Movie.2020.1080p.BluRay.mkv".toList, 9⟩)
        ⟨"Movie.2020.1080p.BluRay.mkv".toList, 9⟩ =
      processMovieFile zeroProbe ("Movie (2020)".toList)
        [⟨"Movie (2020) - 480p.mkv".toList, 3⟩] ⟨"Movie.2020.1080p.BluRay.mkv".toList, 9⟩ :=
  reprocess_idempotent_without_edition zeroProbe ("Movie (2020)".toList)
    [⟨"Movie (2020) - 480p.mkv".toList, 3⟩] ⟨"Movie.2020.1080p.BluRay.mkv".toList, 9⟩
    (by decide)

/-- While the deadline of the pending timer lies beyond every later
event, delivering those events only rearms the timer and nothing fires. -/
theorem runEvents_invariant (d : Nat) (ex : Bool) :
    ∀ (ts : List Nat) (t : Nat), List.Chain' (fun a b => b < a + d) (t :: ts) →
      runEvents d ex ts ⟨some (t + d), false, []⟩ =
        ⟨some (ts.getLastD t + d), false, []⟩ := by
  intro ts
  induction ts with
  | nil => intro t _; rfl
  | cons t2 ts2 ih =>
      intro t hch
      rw [List.chain'_cons] at hch
      calc runEvents d ex (t2 :: ts2) ⟨some (t + d), false, []⟩
          = runEvents d ex ts2 ⟨some (t2 + d), false, []⟩ := by
            simp only [runEvents]
            rw [if_neg (by omega)]
            rfl
        _ = ⟨some (ts2.getLastD t2 + d), false, []⟩ := ih t2 hch.2
        _ = ⟨some ((t2 :: ts2).getLastD t + d), false, []⟩ := by
            rw [List.getLastD_cons]

/-- C1: raw events for one key whose gaps are each shorter than the quiet
period produce exactly one queue entry, enqueued at the deadline of the
timer armed by the last event (quiet period after the last event); and a
firing timer for a key whose entry is already in the queue enqueues
nothing. -/
theorem debounce_coalesces_events (d t u : Nat) (ts : List Nat)
    (s : DebounceState) (e : Bool)
    (hgap : List.Chain' (fun a b => b < a + d) (t :: ts))
    (hq : s.inQueue = true) :
    (debounceRun d true (t :: ts)).enqueues = [ts.getLastD t + d] ∧
    (fireAt e u s).enqueues = s.enqueues := by
  constructor
  · have h0 : runEvents d true (t :: ts) ⟨none, false, []⟩ =
        ⟨some (ts.getLastD t + d), false, []⟩ := by
      have hstep : runEvents d true (t :: ts) ⟨none, false, []⟩ =
          runEvents d true ts ⟨some (t + d), false, []⟩ := rfl
      rw [hstep]
      exact runEvents_invariant d true ts t hgap
    unfold debounceRun
    rw [h0]
    simp [finishRun, fireAt]
  · unfold fireAt
    split
    · simp [hq]
    · rfl

/-- Witness for C1: three events at 0, 2, 3 with quiet period 5 yield one
enqueue at time 8, and a timer firing on an already-queued key is a
no-op. -/
theorem debounce_coalesces_events_witness :
    (debounceRun 5 true [0, 2, 3]).enqueues = [[2, 3].getLastD 0 + 5] ∧
    (fireAt false 9 ⟨none, true, []⟩).enqueues =
      (⟨none, true, []⟩ : DebounceState).enqueues :=
  debounce_coalesces_events 5 0 9 [2, 3] ⟨none, true, []⟩ false
    (by norm_num [List.chain'_cons, List.chain'_singleton]) rfl

/-- A snapshot that equals the empty dict is empty. -/
theorem snapEq_nil_right (s : Snap) (h : snapEq s [] = true) : s = [] := by
  cases s with
  | nil => rfl
  | cons a t => simp [snapEq] at h

/-- Soundness of the polling loop: a true answer comes from some poll
whose snapshot is non-empty and equal to the previous one. -/
theorem wfsAux_sound (snaps : Nat → Snap) :
    ∀ (n k : Nat) (last : Snap), wfsAux snaps n k last = true →
      ((snaps k).isEmpty = false ∧ snapEq (snaps k) last = true) ∨
      ∃ j, k < j ∧ j < k + n ∧ (snaps j).isEmpty = false ∧
        snapEq (snaps j) (snaps (j - 1)) = true := by
  intro n
  induction n with
  | zero => intro k last h; simp [wfsAux] at h
  | succ m ih =>
      intro k last h
      simp only [wfsAux] at h
      by_cases hc : (!(snaps k).isEmpty && snapEq (snaps k) last) = true
      · rw [Bool.and_eq_true, Bool.not_eq_true'] at hc
        exact Or.inl hc
      · rw [if_neg hc] at h
        have hm : m ≠ 0 := by
          rintro rfl
          simp [wfsAux] at h
        rcases ih (k + 1) (snaps k) h with ⟨h1, h2⟩ | ⟨j, hj1, hj2, hj3, hj4⟩
        · right
          refine ⟨k + 1, Nat.lt_succ_self k, by omega, h1, ?_⟩
          simpa using h2
        · right
          exact ⟨j, by omega, by omega, hj3, hj4⟩

/-- A run whose consecutive snapshots always differ never reports
stability from any starting poll. -/
theorem wfsAux_changing (snaps : Nat → Snap)
    (hchg : ∀ j, snapEq (snaps (j + 1)) (snaps j) = false) :
    ∀ (n k : Nat), wfsAux snaps n (k + 1) (snaps k) = false := by
  intro n
  induction n with
  | zero => intro k; rfl
  | succ m ih =>
      intro k
      simp only [wfsAux]
      rw [hchg k, Bool.and_false, if_neg Bool.false_ne_true]
      exact ih (k + 1)

/-- If every poll changes the snapshot, the detector times out false. -/
theorem wait_changing_false (snaps : Nat → Snap)
    (hchg : ∀ j, snapEq (snaps (j + 1)) (snaps j) = false) (T I : Nat) :
    wait_for_stability T I snaps = false := by
  unfold wait_for_stability
  cases hnp : numPolls T I with
  | zero => rfl
  | succ m =>
      simp only [wfsAux]
      have h0 : (!(snaps 0).isEmpty && snapEq (snaps 0) []) = false := by
        cases h1 : snapEq (snaps 0) [] with
        | false => rw [Bool.and_false]
        | true =>
            have h2 := snapEq_nil_right _ h1
            rw [h2]
            rfl
      rw [h0, if_neg Bool.false_ne_true]
      exact wfsAux_changing snaps hchg m 0

/-- A true detector answer comes from a poll, after the first, whose
snapshot is non-empty and equal to the immediately preceding one. -/
theorem wait_true_sound (snaps : Nat → Snap) (T I : Nat)
    (h : wait_for_stability T I snaps = true) :
    ∃ j, 0 < j ∧ j < numPolls T I ∧ (snaps j).isEmpty = false ∧
      snapEq (snaps j) (snaps (j - 1)) = true := by
  unfold wait_for_stability at h
  rcases wfsAux_sound snaps (numPolls T I) 0 [] h with ⟨h1, h2⟩ | ⟨j, hj1, hj2, hj3, hj4⟩
  · have h3 := snapEq_nil_right _ h2
    rw [h3] at h1
    simp at h1
  · exact ⟨j, hj1, by simpa using hj2, hj3, hj4⟩

/-- C4: the stability detector returns true only at a poll whose snapshot
is non-empty and equal to the immediately preceding one; when the
snapshot changes at every poll it returns false once the timeout elapses;
and a file vanishing between the listing and the size lookup is simply
absent from the snapshot. -/
theorem stability_detector_spec (snaps : Nat → Snap) (T I : Nat)
    (l1 l2 : Listing) (f : Name)
    (hchg : ∀ j, snapEq (snaps (j + 1)) (snaps j) = false) :
    wait_for_stability T I snaps = false ∧
    (∀ (snaps2 : Nat → Snap) (T2 I2 : Nat), wait_for_stability T2 I2 snaps2 = true →
      ∃ j, 0 < j ∧ j < numPolls T2 I2 ∧ (snaps2 j).isEmpty = false ∧
        snapEq (snaps2 j) (snaps2 (j - 1)) = true) ∧
    get_snapshot (l1 ++ (f, none) :: l2) = get_snapshot (l1 ++ l2) := by
  refine ⟨wait_changing_false snaps hchg T I,
    fun s2 T2 I2 h => wait_true_sound s2 T2 I2 h, ?_⟩
  simp [get_snapshot]

/-- Witness for C4: a growing file never stabilizes within timeout 6 and
interval 2; a constant non-empty snapshot is detected stable at poll 1;
and a vanished file is dropped from a concrete snapshot. -/
theorem stability_detector_spec_witness :
    wait_for_stability 6 2 (fun k => [(['a'], k)]) = false ∧
    (∃ j, 0 < j ∧ j < numPolls 6 2 ∧ (([(['a'], 1)] : Snap)).isEmpty = false ∧
      snapEq [(['a'], 1)] [(['a'], 1)] = true) ∧
    get_snapshot ([(['x'], some 3)] ++ (['y'], (none : Option Nat)) :: [(['z'], some 5)]) =
      get_snapshot ([(['x'], some 3)] ++ [(['z'], some 5)]) := by
  have h := stability_detector_spec (fun k => [(['a'], k)]) 6 2
    [(['x'], some 3)] [(['z'], some 5)] ['y'] (fun j => by simp [snapEq])
  exact ⟨h.1, h.2.1 (fun _ => [(['a'], 1)]) 6 2 (by decide), h.2.2⟩

/-- A digit character has value at most nine. -/
theorem dv_le_nine (c : Char) (h : isDigitC c = true) : dv c ≤ 9 := by
  unfold isDigitC at h
  rw [Bool.and_eq_true, decide_eq_true_eq, decide_eq_true_eq] at h
  unfold dv
  omega

/-- Any year found by the year search lies between 1980 and 2099. -/
theorem findYearAux_range :
    ∀ (l : Name) (pw : Bool) (pos p y : Nat),
      findYearAux pw pos l = some (p, y) → 1980 ≤ y ∧ y ≤ 2099 := by
  intro l
  induction l with
  | nil => intro pw pos p y h; simp [findYearAux] at h
  | cons c1 rest ih =>
      intro pw pos p y h
      rcases rest with _ | ⟨c2, _ | ⟨c3, _ | ⟨c4, rest4⟩⟩⟩
      · simp [findYearAux] at h
      · simp [findYearAux] at h
      · simp [findYearAux] at h
      · rw [findYearAux] at h
        by_cases hc : (!pw && yearPat c1 c2 c3 c4 && bAfter rest4) = true
        · rw [if_pos hc] at h
          have hy : 1000 * dv c1 + 100 * dv c2 + 10 * dv c3 + dv c4 = y := by
            have h2 := (Option.some.injEq _ _).mp h
            exact congrArg Prod.snd h2
          have hpat : yearPat c1 c2 c3 c4 = true := by
            rw [Bool.and_eq_true, Bool.and_eq_true] at hc
            exact hc.1.2
          simp only [yearPat, Bool.or_eq_true, Bool.and_eq_true, decide_eq_true_eq] at hpat
          rcases hpat with ⟨⟨⟨h1, h2⟩, h3⟩, h4⟩ | ⟨⟨⟨h1, h2⟩, h3⟩, h4⟩
          · have hc4 := dv_le_nine c4 h4
            subst h1 h2
            rcases h3 with h3 | h3 <;> subst h3 <;>
              simp only [show dv '1' = 1 from by decide, show dv '9' = 9 from by decide,
                show dv '8' = 8 from by decide] at hy <;> omega
          · have hc3 := dv_le_nine c3 h3
            have hc4 := dv_le_nine c4 h4
            subst h1 h2
            simp only [show dv '2' = 2 from by decide,
              show dv '0' = 0 from by decide] at hy
            omega
        · rw [if_neg hc] at h
          exact ih (isWordC c1) (pos + 1) p y h

/-- C5: for a filename whose cleaned form contains a year token (with
word boundaries) and matches neither the season-episode pattern nor the
lone-season pattern, parse returns that year, which lies in 1980..2099,
and a title equal to the text before the year with separators turned to
spaces and whitespace collapsed; and the two concrete season-episode
examples parse as specified. -/
theorem parse_filename_spec (f : Name) (p y : Nat)
    (h1 : findYearAux false 0 (cleanName f) = some (p, y))
    (h2 : findSEAux 0 (cleanName f) = none)
    (h3 : findSOnlyAux 0 (cleanName f) = none) :
    (parse_filename f =
      { title := collapseTitle ((cleanName f).take p), year := some y,
        season := none, start_episode := none, end_episode := none } ∧
      1980 ≤ y ∧ y ≤ 2099) ∧
    parse_filename ("Show.Name.S02E05.1080p.mkv".toList) =
      { title := "Show Name".toList, year := none, season := some 2,
        start_episode := some 5, end_episode := none } ∧
    (parse_filename ("Show.Name.S02E05E06.mkv".toList)).end_episode = some 6 := by
  refine ⟨⟨?_, findYearAux_range (cleanName f) false 0 p y h1⟩, by decide, by decide⟩
  simp only [parse_filename, h1, h2, h3, Option.map_some]

/-- Witness for C5 at a concrete year-only filename. -/
theorem parse_filename_spec_witness :
    (parse_filename ("Movie.1999.mkv".toList) =
      { title := collapseTitle ((cleanName ("Movie.1999.mkv".toList)).take 6),
        year := some 1999, season := none, start_episode := none, end_episode := none } ∧
      1980 ≤ 1999 ∧ 1999 ≤ 2099) ∧
    parse_filename ("Show.Name.S02E05.1080p.mkv".toList) =
      { title := "Show Name".toList, year := none, season := some 2,
        start_episode := some 5, end_episode := none } ∧
    (parse_filename ("Show.Name.S02E05E06.mkv".toList)).end_episode = some 6 :=
  parse_filename_spec ("Movie.1999.mkv".toList) 6 1999 (by decide) (by decide) (by decide)

end Orz
